import Mathlib

/-!
Verification development for the smart-irrigation decision engine
(`ai_engine/predictors.py` and `ai_engine/views.py`).

Numbers: Python float arithmetic is modelled by exact rational arithmetic
over `ℚ`; Python `round(x, n)` (round half to even, the IEEE default used
by CPython on exact halves) is modelled by `pyRound` / `roundTo` below.

Strings returned to the user interface (recommendation texts, reasoning
sentences) are not needed by any property below and are therefore not
modelled; dictionaries returned by the Gemini integration are modelled by
inductive types carrying one constructor per `return` statement of the
source, together with the literal list of keys of the dictionary built at
that `return` site.
-/

/-- Python `round` to an integer: round half to even (banker's rounding). -/
def pyRound (q : ℚ) : ℤ :=
  if q - Int.floor q < 1/2 then Int.floor q
  else if q - Int.floor q > 1/2 then Int.floor q + 1
  else if Int.floor q % 2 = 0 then Int.floor q else Int.floor q + 1

/-- Python `round(q, n)`: round to `n` decimal digits, half to even. -/
def roundTo (n : ℕ) (q : ℚ) : ℚ :=
  (pyRound (q * 10 ^ n) : ℚ) / 10 ^ n

namespace IrrigationPredictor

/-- Moisture sub-score of `IrrigationPredictor._calculate_irrigation_score`
(`predictors.py` lines 89-96): piecewise-constant step function of the
soil-moisture reading. -/
def moisture_score (soil_moisture : ℚ) : ℚ :=
  if soil_moisture < 25 then 1
  else if soil_moisture < 40 then 0.8
  else if soil_moisture < 60 then 0.4
  else 0.1

/-- Air-humidity sub-score (`predictors.py` line 100). -/
def humidity_score (air_humidity : ℚ) : ℚ :=
  max 0 ((70 - air_humidity) / 70)

/-- Temperature sub-score (`predictors.py` line 104). -/
def temp_score (temperature : ℚ) : ℚ :=
  max 0 ((temperature - 20) / 15)

/-- Rainfall-forecast sub-score (`predictors.py` line 108). -/
def rain_score (rainfall : ℚ) : ℚ :=
  max 0 (1 - rainfall / 10)

/-- `IrrigationPredictor._calculate_irrigation_score` (`predictors.py`
lines 83-118): weighted sum of the four sub-scores with weights
0.5 / 0.2 / 0.2 / 0.1, then `min(1.0, total_score)`. -/
def calculate_irrigation_score (soil_moisture air_humidity temperature rainfall : ℚ) : ℚ :=
  min 1 (moisture_score soil_moisture * 0.5 +
         humidity_score air_humidity * 0.2 +
         temp_score temperature * 0.2 +
         rain_score rainfall * 0.1)

/-- `IrrigationPredictor._calculate_duration` (`predictors.py` lines
166-175): irrigation duration in minutes as a step function of moisture. -/
def calculate_duration (soil_moisture : ℚ) : ℤ :=
  if soil_moisture < 25 then 20
  else if soil_moisture < 40 then 15
  else if soil_moisture < 55 then 10
  else 5

/-- The numeric and boolean fields of the dictionary returned on the
non-error path of `IrrigationPredictor.predict_irrigation_need`
(`predictors.py` lines 59-72).  The free-text fields (`recommendation`,
`reasoning`, `optimal_timing`), the water amount and the timestamp are
not needed by any claim and are omitted. -/
structure Prediction where
  need_irrigation : Bool
  irrigation_score : ℚ
  confidence_score : ℚ
  predicted_duration_minutes : ℤ
deriving Repr, DecidableEq

/-- Non-error path of `IrrigationPredictor.predict_irrigation_need`
(`predictors.py` lines 35-72).  The inputs are the four numeric values
extracted from the sensor and weather dictionaries (with defaults 50, 60,
25, 0 applied by the caller when a key is missing). -/
def predict_irrigation_need (soil_moisture air_humidity temperature rainfall : ℚ) :
    Prediction :=
  let irrigation_score := calculate_irrigation_score soil_moisture air_humidity
    temperature rainfall
  { need_irrigation := decide (irrigation_score > 0.7)
    irrigation_score := roundTo 3 irrigation_score
    confidence_score := roundTo 1 (min 95 (irrigation_score * 100))
    predicted_duration_minutes := calculate_duration soil_moisture }

end IrrigationPredictor

namespace PlantHealthAnalyzer

/-- `PlantHealthAnalyzer._assess_growth_rate` (`predictors.py` lines
270-280): `expected_height = days_since_planted * 0.8`; when positive the
height ratio is capped at 1.2 then at 1.0, otherwise 0.5. -/
def assess_growth_rate (days_since_planted height : ℚ) : ℚ :=
  let expected_height := days_since_planted * 0.8
  if expected_height > 0 then min 1 (min 1.2 (height / expected_height))
  else 0.5

/-- The list `stress_factors` built by
`PlantHealthAnalyzer._detect_stress_indicators` (`predictors.py` lines
284-305): one appended contribution per triggered stress condition, in
source order (moisture, temperature, pH). -/
def stress_factors (soil_moisture temperature ph : ℚ) : List ℚ :=
  (if soil_moisture < 30 then [0.8]
   else if soil_moisture < 45 then [0.4] else []) ++
  (if temperature > 32 ∨ temperature < 10 then [0.9]
   else if temperature > 28 ∨ temperature < 15 then [0.3] else []) ++
  (if ph < 5.5 ∨ ph > 8.0 then [0.7]
   else if ph < 6.0 ∨ ph > 7.5 then [0.2] else [])

/-- `PlantHealthAnalyzer._detect_stress_indicators` (`predictors.py` line
307): `max(stress_factors) if stress_factors else 0.1`. -/
def detect_stress_indicators (soil_moisture temperature ph : ℚ) : ℚ :=
  match stress_factors soil_moisture temperature ph with
  | [] => 0.1
  | x :: xs => xs.foldl max x

/-- The list `factors` built by `PlantHealthAnalyzer._evaluate_environment`
(`predictors.py` lines 311-328): exactly one bucket value per factor
(soil moisture, then temperature). -/
def environment_factors (soil_moisture temperature : ℚ) : List ℚ :=
  [(if 60 ≤ soil_moisture ∧ soil_moisture ≤ 80 then 1
    else if (40 ≤ soil_moisture ∧ soil_moisture < 60) ∨
            (80 < soil_moisture ∧ soil_moisture ≤ 90) then 0.7
    else 0.3),
   (if 18 ≤ temperature ∧ temperature ≤ 26 then 1
    else if (15 ≤ temperature ∧ temperature < 18) ∨
            (26 < temperature ∧ temperature ≤ 30) then 0.7
    else 0.3)]

/-- `PlantHealthAnalyzer._evaluate_environment` (`predictors.py` line 330):
`sum(factors) / len(factors) if factors else 0.5`. -/
def evaluate_environment (soil_moisture temperature : ℚ) : ℚ :=
  let factors := environment_factors soil_moisture temperature
  if factors = [] then 0.5
  else factors.sum / (factors.length : ℚ)

/-- The five health tiers returned by
`PlantHealthAnalyzer._classify_health_status` (`predictors.py` lines
332-343); constructors are named after the Uzbek strings of the source:
`alo` = excellent, `yaxshi` = good, `ortacha` = average, `yomon` = poor,
`kritik` = critical. -/
inductive HealthStatus where
  | alo
  | yaxshi
  | ortacha
  | yomon
  | kritik
deriving Repr, DecidableEq

/-- `PlantHealthAnalyzer._classify_health_status` (`predictors.py` lines
332-343): thresholds 0.9 / 0.75 / 0.6 / 0.4, each tested with `>=`. -/
def classify_health_status (health_score : ℚ) : HealthStatus :=
  if health_score ≥ 0.9 then .alo
  else if health_score ≥ 0.75 then .yaxshi
  else if health_score ≥ 0.6 then .ortacha
  else if health_score ≥ 0.4 then .yomon
  else .kritik

/-- The numeric fields of the dictionary returned on the non-error path of
`PlantHealthAnalyzer.analyze_plant_health` (`predictors.py` lines 250-260).
The recommendation and risk-factor lists and the timestamp are not needed
by any claim and are omitted. -/
structure HealthAnalysis where
  overall_health_score : ℚ
  health_status : HealthStatus
  growth_score : ℚ
  stress_level : ℚ
  environment_score : ℚ
deriving Repr, DecidableEq

/-- Non-error path of `PlantHealthAnalyzer.analyze_plant_health`
(`predictors.py` lines 233-260).  Inputs are the numeric values extracted
from the plant and sensor dictionaries (`days_since_planted`, `height`,
`soil_moisture`, `temperature`, `ph`, with the source defaults applied by
the caller when a key is missing). -/
def analyze_plant_health (days_since_planted height soil_moisture temperature ph : ℚ) :
    HealthAnalysis :=
  let growth_score := assess_growth_rate days_since_planted height
  let stress_score := detect_stress_indicators soil_moisture temperature ph
  let environment_score := evaluate_environment soil_moisture temperature
  let overall_health := (growth_score + environment_score + (1 - stress_score)) / 3
  { overall_health_score := roundTo 1 (overall_health * 100)
    health_status := classify_health_status overall_health
    growth_score := roundTo 1 (growth_score * 100)
    stress_level := roundTo 1 (stress_score * 100)
    environment_score := roundTo 1 (environment_score * 100) }

end PlantHealthAnalyzer

namespace GeminiIntegration

/-- Environment of one `GeminiIntegration.analyze_comprehensive_data` call
(`predictors.py` lines 408-503).  `use_real_api` is the flag set by
`__init__` (false when `GEMINI_API_KEY` is unset or client initialisation
failed); `call_error` is `some e` when prompt building or
`model.generate_content` raises with message `e`; `response_text` is the
text of the model response otherwise; `parse_error` is `some e` when an
exception with message `e` is raised inside the body of
`_parse_real_gemini_response`. -/
structure GeminiEnv where
  use_real_api : Bool
  call_error : Option String
  response_text : String
  parse_error : Option String
deriving Repr, DecidableEq

/-- Truncation `text[:500] + ...` used at `predictors.py` lines 654 and
713 (applied only when the text is longer than 500 characters). -/
def truncate500 (s : String) : String :=
  if s.length > 500 then s.take 500 ++ "..." else s

/-- Result of `GeminiIntegration._parse_real_gemini_response`
(`predictors.py` lines 643-715): either the structured dictionary built on
lines 691-706 (its string/number field values are not needed by any claim
and are not modelled beyond the raw response text and the soil-moisture
input), or the error dictionary built on lines 710-715 when an exception
is raised inside the body. -/
inductive ParsedResponse where
  | parsedOk (raw_response : String) (soil_moisture : ℚ)
  | parseFailed (error_msg : String) (raw_response : String)
deriving Repr, DecidableEq

/-- `GeminiIntegration._parse_real_gemini_response` (`predictors.py` lines
643-715).  The whole body is wrapped in `try/except Exception`: an
exception never propagates; it is converted into the
`GEMINI_RESPONSE_PARSE_ERROR` dictionary (lines 710-715). -/
def parse_real_gemini_response (parse_error : Option String) (response_text : String)
    (soil_moisture : ℚ) : ParsedResponse :=
  match parse_error with
  | some e =>
      .parseFailed ("GEMINI_RESPONSE_PARSE_ERROR: " ++ e) (truncate500 response_text)
  | none => .parsedOk response_text soil_moisture

/-- The literal key list of the dictionary returned by
`_parse_real_gemini_response` on each of its two return paths
(`predictors.py` lines 691-706 and 710-715). -/
def parsed_response_keys : ParsedResponse → List String
  | .parsedOk _ _ =>
      ["irrigation_recommendation", "irrigation_urgency", "detailed_reasoning",
       "optimal_timing", "irrigation_amount", "irrigation_duration",
       "irrigation_method", "plant_health_assessment", "risk_factors",
       "environmental_recommendations", "confidence_level",
       "gemini_raw_response", "response_length", "parsing_timestamp"]
  | .parseFailed _ _ =>
      ["error", "message", "raw_response", "source"]

/-- Result of `GeminiIntegration.analyze_comprehensive_data`
(`predictors.py` lines 433-503): one constructor per `return` statement —
the missing-API-key error dictionary (lines 452-457), the success
dictionary wrapping the parse result under `gemini_analysis` (lines
479-489), and the API-call-failure error dictionary (lines 495-503). -/
inductive AnalysisResult where
  | apiKeyMissing
  | analysis (gemini_analysis : ParsedResponse)
  | apiCallFailed (error_detail : String)
deriving Repr, DecidableEq

/-- `GeminiIntegration.analyze_comprehensive_data` (`predictors.py` lines
433-503).  Control flow of the source: return the missing-key error when
`use_real_api` is false; otherwise run the `try` block — a raised
exception (prompt building, `generate_content`, or the explicit
`raise Exception("Empty response from Gemini AI")` when `response.text`
is falsy) reaches the `except` handler which returns the
`REAL_GEMINI_API_FAILED` dictionary; otherwise the parse result is
embedded into the success dictionary.  `_parse_real_gemini_response`
itself never raises. -/
def analyze_comprehensive_data (env : GeminiEnv) (soil_moisture : ℚ) : AnalysisResult :=
  if env.use_real_api then
    match env.call_error with
    | some e => .apiCallFailed e
    | none =>
        if env.response_text = "" then .apiCallFailed "Empty response from Gemini AI"
        else .analysis (parse_real_gemini_response env.parse_error env.response_text
          soil_moisture)
  else .apiKeyMissing

/-- The literal key list of the dictionary returned by
`analyze_comprehensive_data` on each of its three return paths
(`predictors.py` lines 452-457, 479-489, 495-503). -/
def analysis_result_keys : AnalysisResult → List String
  | .apiKeyMissing =>
      ["error", "message", "required_action", "source"]
  | .analysis _ =>
      ["gemini_analysis", "insights", "action_plan", "confidence_score",
       "analysis_timestamp", "source", "model", "prompt_length", "response_length"]
  | .apiCallFailed _ =>
      ["error", "message", "required_action", "confidence_score", "source",
       "analysis_timestamp", "api_error_details"]

end GeminiIntegration

namespace Views

open GeminiIntegration

/-- Status values of `AIAnalysisSession.status`
(`ai_engine/models.py`, `STATUS_CHOICES`, default `running`). -/
inductive SessionStatus where
  | running
  | completed
  | failed
  | cancelled
deriving Repr, DecidableEq

/-- Outcome of one `comprehensive_analysis` view call: the final session
status and the analysis result returned to the client (none when the
`except` handler answered with an HTTP 500 error payload). -/
structure ViewOutcome where
  session_status : SessionStatus
  response_result : Option AnalysisResult
deriving Repr, DecidableEq

/-- `comprehensive_analysis` (`ai_engine/views.py` lines 180-308), reduced
to its session-status logic.  `analyze_comprehensive_data` returns on
every path (all its failure modes are converted to returned error
dictionaries), so the only exceptions reaching the view `except` handler
come from the surrounding code (session creation, sensor-reading
generation, persistence), modelled by the flag `surrounding_exception`.
On the no-exception path the view sets `session.status = "completed"`
unconditionally after the analysis call (line 263), whatever dictionary
the call returned; the `except` handler sets `session.status = "failed"`
(line 301). -/
def comprehensive_analysis_view (surrounding_exception : Bool) (env : GeminiEnv)
    (soil_moisture : ℚ) : ViewOutcome :=
  if surrounding_exception then
    { session_status := .failed, response_result := none }
  else
    { session_status := .completed
      response_result := some (analyze_comprehensive_data env soil_moisture) }

end Views

/-! Helper lemmas about the rounding model. -/

theorem floor_le_pyRound (q : ℚ) : Int.floor q ≤ pyRound q := by
  unfold pyRound
  split_ifs <;> omega

theorem pyRound_le_floor_add_one (q : ℚ) : pyRound q ≤ Int.floor q + 1 := by
  unfold pyRound
  split_ifs <;> omega

theorem pyRound_le_add_half (q : ℚ) : (pyRound q : ℚ) ≤ q + 1/2 := by
  have h1 : (Int.floor q : ℚ) ≤ q := Int.floor_le q
  unfold pyRound
  split_ifs <;> push_cast <;> linarith

theorem sub_half_le_pyRound (q : ℚ) : q - 1/2 ≤ (pyRound q : ℚ) := by
  have h1 : q < Int.floor q + 1 := Int.lt_floor_add_one q
  unfold pyRound
  split_ifs <;> push_cast <;> linarith

theorem pyRound_intCast (n : ℤ) : pyRound (n : ℚ) = n := by
  unfold pyRound
  rw [Int.floor_intCast]
  norm_num

theorem pyRound_le_of_le_int (q : ℚ) (n : ℤ) (h : q ≤ (n : ℚ)) : pyRound q ≤ n := by
  have hf : Int.floor q ≤ n := by
    have h2 := Int.floor_le_floor h
    simpa using h2
  rcases lt_or_eq_of_le hf with hlt | heq
  · have h3 := pyRound_le_floor_add_one q
    omega
  · have h4 : (n : ℚ) ≤ q := by
      rw [← heq]
      exact Int.floor_le q
    have h5 : q = (n : ℚ) := le_antisymm h h4
    rw [h5, pyRound_intCast]

theorem int_le_pyRound (q : ℚ) (n : ℤ) (h : (n : ℚ) ≤ q) : n ≤ pyRound q := by
  have hf : n ≤ Int.floor q := Int.le_floor.mpr h
  have h2 := floor_le_pyRound q
  omega

theorem roundTo_confidence (s : ℚ) :
    roundTo 1 (min 95 (s * 100)) = min 95 (roundTo 3 s * 100) := by
  rcases le_or_lt (s * 100) 95 with h | h
  · have h1 : min (95 : ℚ) (s * 100) = s * 100 := min_eq_right h
    have h2 : s * 100 * 10 ^ 1 = s * 10 ^ 3 := by ring
    have h3 : pyRound (s * 10 ^ 3) ≤ 950 := by
      apply pyRound_le_of_le_int
      push_cast
      linarith
    have h4 : min (95 : ℚ) ((pyRound (s * 10 ^ 3) : ℚ) / 10 ^ 3 * 100)
        = (pyRound (s * 10 ^ 3) : ℚ) / 10 ^ 3 * 100 := by
      apply min_eq_right
      have h5 : (pyRound (s * 10 ^ 3) : ℚ) ≤ 950 := by exact_mod_cast h3
      rw [div_mul_eq_mul_div, div_le_iff₀ (by norm_num : (0 : ℚ) < 10 ^ 3)]
      linarith
    rw [h1]
    unfold roundTo
    rw [h2, h4]
    ring
  · have h1 : min (95 : ℚ) (s * 100) = 95 := min_eq_left (le_of_lt h)
    have h3 : (950 : ℤ) ≤ pyRound (s * 10 ^ 3) := by
      apply int_le_pyRound
      push_cast
      linarith
    have h4 : min (95 : ℚ) ((pyRound (s * 10 ^ 3) : ℚ) / 10 ^ 3 * 100) = 95 := by
      apply min_eq_left
      have h5 : (950 : ℚ) ≤ (pyRound (s * 10 ^ 3) : ℚ) := by exact_mod_cast h3
      rw [div_mul_eq_mul_div, le_div_iff₀ (by norm_num : (0 : ℚ) < 10 ^ 3)]
      linarith
    rw [h1]
    unfold roundTo
    rw [h4]
    have h6 : (95 : ℚ) * 10 ^ 1 = ((950 : ℤ) : ℚ) := by norm_num
    rw [h6, pyRound_intCast]
    norm_num

/-! Helper lemmas about the maximum of a list, as computed by Python
`max` over a nonempty list (modelled by `List.foldl max`). -/

theorem le_foldl_max (x : ℚ) (xs : List ℚ) : x ≤ xs.foldl max x := by
  induction xs generalizing x with
  | nil => simp
  | cons y ys ih =>
    simp only [List.foldl_cons]
    exact le_trans (le_max_left x y) (ih (max x y))

theorem mem_le_foldl_max (x : ℚ) (xs : List ℚ) : ∀ y ∈ xs, y ≤ xs.foldl max x := by
  induction xs generalizing x with
  | nil => simp
  | cons z zs ih =>
    intro y hy
    simp only [List.foldl_cons]
    rcases List.mem_cons.mp hy with rfl | hy2
    · exact le_trans (le_max_right x y) (le_foldl_max (max x y) zs)
    · exact ih (max x z) y hy2

theorem foldl_max_mem (x : ℚ) (xs : List ℚ) : xs.foldl max x = x ∨ xs.foldl max x ∈ xs := by
  induction xs generalizing x with
  | nil => left; rfl
  | cons y ys ih =>
    simp only [List.foldl_cons]
    rcases ih (max x y) with h | h
    · rcases le_total x y with hxy | hxy
      · right
        rw [h, max_eq_right hxy]
        exact List.mem_cons_self y ys
      · left
        rw [h, max_eq_left hxy]
    · right
      exact List.mem_cons_of_mem y h

open IrrigationPredictor PlantHealthAnalyzer GeminiIntegration Views

/-- C2: on the non-error path of `predict_irrigation_need`, the returned
`need_irrigation` is true exactly when the computed irrigation score is
strictly greater than 0.7, and the returned `confidence_score` equals
`min(95, irrigation_score * 100)`; at the boundary, a computed score of
exactly 0.70 (inputs 20/70/35/10) yields false and a score of 0.70001
(temperature raised by 3/4000) yields true. -/
theorem claim_C2 (soil_moisture air_humidity temperature rainfall : ℚ) :
    ((predict_irrigation_need soil_moisture air_humidity temperature rainfall).need_irrigation
        = true ↔
      0.7 < calculate_irrigation_score soil_moisture air_humidity temperature rainfall) ∧
    (predict_irrigation_need soil_moisture air_humidity temperature rainfall).confidence_score
      = min 95
        ((predict_irrigation_need soil_moisture air_humidity temperature
          rainfall).irrigation_score * 100) ∧
    calculate_irrigation_score 20 70 35 10 = 0.7 ∧
    (predict_irrigation_need 20 70 35 10).need_irrigation = false ∧
    calculate_irrigation_score 20 70 (35 + 3/4000) 10 = 0.7 + 1/100000 ∧
    (predict_irrigation_need 20 70 (35 + 3/4000) 10).need_irrigation = true := by
  refine ⟨?_, ?_, ?_, ?_, ?_, ?_⟩
  · simp [predict_irrigation_need]
  · simp only [predict_irrigation_need]
    exact roundTo_confidence _
  · norm_num [calculate_irrigation_score, moisture_score, humidity_score, temp_score,
      rain_score, max_def, min_def]
  · norm_num [predict_irrigation_need, calculate_irrigation_score, moisture_score,
      humidity_score, temp_score, rain_score, max_def, min_def]
  · norm_num [calculate_irrigation_score, moisture_score, humidity_score, temp_score,
      rain_score, max_def, min_def]
  · norm_num [predict_irrigation_need, calculate_irrigation_score, moisture_score,
      humidity_score, temp_score, rain_score, max_def, min_def]

/-- C3: the four sub-scores of `_calculate_irrigation_score` have exactly
the shapes stated by the specification (moisture step function with
thresholds 25/40/60 and values 1.0/0.8/0.4/0.1, hence at most 0.1 for
moisture at least 60; `max(0, (70-humidity)/70)`; `max(0, (temp-20)/15)`;
`max(0, 1-forecast/10)`), and the irrigation score is their 0.5/0.2/0.2/0.1
weighted sum clamped to the interval [0,1]. -/
theorem claim_C3 (soil_moisture air_humidity temperature rainfall : ℚ) :
    moisture_score soil_moisture
      = (if soil_moisture < 25 then 1 else if soil_moisture < 40 then 0.8
         else if soil_moisture < 60 then 0.4 else 0.1) ∧
    (60 ≤ soil_moisture → moisture_score soil_moisture ≤ 0.1) ∧
    humidity_score air_humidity = max 0 ((70 - air_humidity) / 70) ∧
    temp_score temperature = max 0 ((temperature - 20) / 15) ∧
    rain_score rainfall = max 0 (1 - rainfall / 10) ∧
    calculate_irrigation_score soil_moisture air_humidity temperature rainfall
      = max 0 (min 1 (0.5 * moisture_score soil_moisture
          + 0.2 * humidity_score air_humidity
          + 0.2 * temp_score temperature
          + 0.1 * rain_score rainfall)) ∧
    0 ≤ calculate_irrigation_score soil_moisture air_humidity temperature rainfall ∧
    calculate_irrigation_score soil_moisture air_humidity temperature rainfall ≤ 1 := by
  have hm : (1 : ℚ)/10 ≤ moisture_score soil_moisture := by
    unfold moisture_score
    split_ifs <;> norm_num
  have hh : (0 : ℚ) ≤ humidity_score air_humidity := le_max_left 0 _
  have ht : (0 : ℚ) ≤ temp_score temperature := le_max_left 0 _
  have hr : (0 : ℚ) ≤ rain_score rainfall := le_max_left 0 _
  have htot : (0 : ℚ) ≤ moisture_score soil_moisture * 0.5
      + humidity_score air_humidity * 0.2 + temp_score temperature * 0.2
      + rain_score rainfall * 0.1 := by
    linarith
  refine ⟨rfl, ?_, rfl, rfl, rfl, ?_, ?_, ?_⟩
  · intro h60
    unfold moisture_score
    split_ifs <;> linarith
  · unfold calculate_irrigation_score
    have hT : (0 : ℚ) ≤ min 1 (0.5 * moisture_score soil_moisture
        + 0.2 * humidity_score air_humidity + 0.2 * temp_score temperature
        + 0.1 * rain_score rainfall) := by
      refine le_min (by norm_num) ?_
      linarith
    rw [max_eq_right hT]
    congr 1
    ring
  · unfold calculate_irrigation_score
    exact le_min (by norm_num) htot
  · unfold calculate_irrigation_score
    exact min_le_left _ _

/-- C7: holding humidity, temperature and rainfall forecast fixed, the
irrigation score is monotonically non-increasing in soil moisture. -/
theorem claim_C7 (air_humidity temperature rainfall m1 m2 : ℚ) (h : m1 ≤ m2) :
    calculate_irrigation_score m2 air_humidity temperature rainfall
      ≤ calculate_irrigation_score m1 air_humidity temperature rainfall := by
  have hm : moisture_score m2 ≤ moisture_score m1 := by
    unfold moisture_score
    split_ifs <;> linarith
  unfold calculate_irrigation_score
  apply min_le_min (le_refl 1)
  linarith

/-- Witness for C7 at concrete inputs: moisture 30 versus 50 with the
other inputs fixed at humidity 60, temperature 25, rainfall 0. -/
theorem claim_C7_witness :
    calculate_irrigation_score 50 60 25 0 ≤ calculate_irrigation_score 30 60 25 0 :=
  claim_C7 60 25 0 30 50 (by norm_num)

/-- C8: for sensors soil_moisture 20, air_humidity 40, temperature 30 and
rainfall forecast 0, the computed score is the weighted sum
`1*0.5 + (30/70)*0.2 + (10/15)*0.2 + 1*0.1 = 86/105`, and the returned
prediction has `irrigation_score = 0.819` (rounded to three digits),
`need_irrigation = true`, `confidence_score = 81.9` and a predicted
duration of 20 minutes. -/
theorem claim_C8 :
    calculate_irrigation_score 20 40 30 0
      = 1 * 0.5 + (70 - 40) / 70 * 0.2 + (30 - 20) / 15 * 0.2 + 1 * 0.1 ∧
    (predict_irrigation_need 20 40 30 0).need_irrigation = true ∧
    (predict_irrigation_need 20 40 30 0).irrigation_score = 0.819 ∧
    (predict_irrigation_need 20 40 30 0).confidence_score = 81.9 ∧
    (predict_irrigation_need 20 40 30 0).predicted_duration_minutes = 20 := by
  have hscore : calculate_irrigation_score 20 40 30 0 = 86/105 := by
    norm_num [calculate_irrigation_score, moisture_score, humidity_score, temp_score,
      rain_score, max_def, min_def]
  refine ⟨by rw [hscore]; norm_num, ?_, ?_, ?_, ?_⟩
  · simp only [predict_irrigation_need, hscore]
    norm_num
  · simp only [predict_irrigation_need, hscore]
    unfold roundTo pyRound
    norm_num
  · simp only [predict_irrigation_need, hscore]
    have hmin : min (95 : ℚ) (86/105 * 100) = 1720/21 := by
      norm_num [min_def]
    rw [hmin]
    unfold roundTo pyRound
    norm_num
  · simp only [predict_irrigation_need]
    norm_num [calculate_duration]

/-- C9: the growth score is the ratio of the actual height to the expected
height `days_since_planted * 0.8`, capped at 1.2 and then clamped to 1.0
when the expected height is positive, and 0.5 otherwise (in particular
when no days have elapsed); for days 50 and height 30 the expected height
is 40 and the growth score is 0.75. -/
theorem claim_C9 (days_since_planted height : ℚ) :
    (0 < days_since_planted * 0.8 →
      assess_growth_rate days_since_planted height
        = min 1 (min 1.2 (height / (days_since_planted * 0.8)))) ∧
    (days_since_planted * 0.8 ≤ 0 →
      assess_growth_rate days_since_planted height = 0.5) ∧
    (days_since_planted = 0 → assess_growth_rate days_since_planted height = 0.5) ∧
    50 * (0.8 : ℚ) = 40 ∧
    assess_growth_rate 50 30 = 30 / (50 * 0.8) ∧
    assess_growth_rate 50 30 = 0.75 := by
  refine ⟨?_, ?_, ?_, by norm_num, ?_, ?_⟩
  · intro h
    simp only [assess_growth_rate]
    rw [if_pos h]
  · intro h
    simp only [assess_growth_rate]
    rw [if_neg (by linarith)]
  · intro h
    subst h
    simp only [assess_growth_rate]
    norm_num
  · norm_num [assess_growth_rate, min_def]
  · norm_num [assess_growth_rate, min_def]

/-- Witness for C9: the zero-elapsed-days case returns 0.5, and the
positive case at days 50, height 30 takes the ratio branch. -/
theorem claim_C9_witness :
    assess_growth_rate 0 99 = 0.5 ∧
    assess_growth_rate 50 30 = min 1 (min 1.2 (30 / (50 * 0.8))) :=
  ⟨(claim_C9 0 99).2.2.1 rfl, (claim_C9 50 30).1 (by norm_num)⟩

/-- Bounds on the stress score: always between the no-factor default 0.1
and the largest possible contribution 0.9. -/
theorem detect_stress_bounds (soil_moisture temperature ph : ℚ) :
    1/10 ≤ detect_stress_indicators soil_moisture temperature ph ∧
    detect_stress_indicators soil_moisture temperature ph ≤ 9/10 := by
  unfold detect_stress_indicators stress_factors
  split_ifs <;> simp <;> norm_num [max_def]

/-- Bounds on the environment score: the mean of two bucket values, each
0.3, 0.7 or 1.0. -/
theorem evaluate_environment_bounds (soil_moisture temperature : ℚ) :
    3/10 ≤ evaluate_environment soil_moisture temperature ∧
    evaluate_environment soil_moisture temperature ≤ 1 := by
  unfold evaluate_environment environment_factors
  split_ifs <;> simp_all <;> norm_num

/-- Bounds on the growth score for a non-negative height. -/
theorem assess_growth_rate_bounds (days_since_planted height : ℚ) (hh : 0 ≤ height) :
    0 ≤ assess_growth_rate days_since_planted height ∧
    assess_growth_rate days_since_planted height ≤ 1 := by
  simp only [assess_growth_rate]
  split_ifs with hd
  · constructor
    · refine le_min (by norm_num) (le_min (by norm_num) ?_)
      exact div_nonneg hh (le_of_lt hd)
    · exact min_le_left _ _
  · norm_num

/-- C5: the stress score is the maximum — not the sum — of the triggered
stress contributions: it is 0.1 when the triggered list is empty, and
otherwise it is an element of the list that bounds every element from
above; at soil moisture 20 and temperature 35 (pH at its default 6.8) two
factors trigger (0.8 and 0.9) and the result is `max 0.8 0.9 = 0.9`, not
the clamped sum 1.7. -/
theorem claim_C5 (soil_moisture temperature ph : ℚ) :
    (stress_factors soil_moisture temperature ph = [] →
      detect_stress_indicators soil_moisture temperature ph = 0.1) ∧
    (stress_factors soil_moisture temperature ph ≠ [] →
      detect_stress_indicators soil_moisture temperature ph
          ∈ stress_factors soil_moisture temperature ph ∧
      ∀ x ∈ stress_factors soil_moisture temperature ph,
        x ≤ detect_stress_indicators soil_moisture temperature ph) ∧
    stress_factors 20 35 6.8 = [0.8, 0.9] ∧
    detect_stress_indicators 20 35 6.8 = max 0.8 0.9 ∧
    detect_stress_indicators 20 35 6.8 = 0.9 ∧
    detect_stress_indicators 20 35 6.8 ≠ min 1 (0.8 + 0.9) := by
  refine ⟨?_, ?_, ?_, ?_, ?_, ?_⟩
  · intro h
    simp [detect_stress_indicators, h]
  · intro h
    rcases hL : stress_factors soil_moisture temperature ph with _ | ⟨x, xs⟩
    · exact absurd hL h
    · have hd : detect_stress_indicators soil_moisture temperature ph = xs.foldl max x := by
        simp [detect_stress_indicators, hL]
      constructor
      · rw [hd]
        rcases foldl_max_mem x xs with h1 | h1
        · rw [h1]
          exact List.mem_cons_self x xs
        · exact List.mem_cons_of_mem x h1
      · intro y hy
        rw [hd]
        rcases List.mem_cons.mp hy with rfl | hy2
        · exact le_foldl_max y xs
        · exact mem_le_foldl_max x xs y hy2
  · norm_num [stress_factors]
  · norm_num [detect_stress_indicators, stress_factors, max_def]
  · norm_num [detect_stress_indicators, stress_factors, max_def]
  · norm_num [detect_stress_indicators, stress_factors, max_def, min_def]

/-- Witness for C5: at the two-trigger input the stress score is a member
of the triggered-factor list. -/
theorem claim_C5_witness :
    detect_stress_indicators 20 35 6.8 ∈ stress_factors 20 35 6.8 :=
  ((claim_C5 20 35 6.8).2.1 (by
    norm_num [stress_factors]
    exact List.cons_ne_nil _ _)).1

/-- C6 counterexample: at days 50, height -300, soil moisture 65,
temperature 25, pH 6.8 the non-error path returns
`overall_health_score = -186.7` (the source rounds
`overall_health * 100` to ONE DECIMAL, `round(x, 1)`), which differs from
the claimed integer `round(100 * (growth + environment + (1-stress)) / 3)`
(equal to -187 here) and lies outside [0,100]: the growth score is not
clamped below for a negative height, so the claimed formula and the
claimed range both fail on the code. -/
theorem claim_C6_counterexample :
    assess_growth_rate 50 (-300) = -15/2 ∧
    (analyze_plant_health 50 (-300) 65 25 6.8).overall_health_score = -1867/10 ∧
    (analyze_plant_health 50 (-300) 65 25 6.8).overall_health_score
      ≠ (pyRound (100 * ((assess_growth_rate 50 (-300) + evaluate_environment 65 25
          + (1 - detect_stress_indicators 65 25 6.8)) / 3)) : ℚ) ∧
    ¬ (0 ≤ (analyze_plant_health 50 (-300) 65 25 6.8).overall_health_score) := by
  have hg : assess_growth_rate 50 (-300) = -15/2 := by
    norm_num [assess_growth_rate, min_def]
  have he : evaluate_environment 65 25 = 1 := by
    have hne : environment_factors 65 25 = [1, 1] := by
      norm_num [environment_factors]
    simp only [evaluate_environment, hne]
    rw [if_neg (List.cons_ne_nil 1 [1])]
    norm_num
  have hs : detect_stress_indicators 65 25 6.8 = 1/10 := by
    norm_num [detect_stress_indicators, stress_factors]
  refine ⟨hg, ?_, ?_, ?_⟩
  · simp only [analyze_plant_health, hg, he, hs]
    unfold roundTo pyRound
    norm_num
  · simp only [analyze_plant_health, hg, he, hs]
    unfold roundTo pyRound
    norm_num
  · simp only [analyze_plant_health, hg, he, hs]
    unfold roundTo pyRound
    norm_num

/-- C6 (amended): on the non-error path the returned
`overall_health_score` equals `round(((growth + environment +
(1 - stress)) / 3) * 100, 1)` — rounded to one decimal digit, not to an
integer; it lies in [0,100] whenever the plant height is non-negative
(the growth ratio is not clamped below, so a negative height escapes the
range); and the five-level classification, applied to the normalized
overall health, is inclusive on the lower bound of each band, with a
normalized score of exactly 0.9 mapping to the top tier. -/
theorem claim_C6_amended (days_since_planted height soil_moisture temperature ph : ℚ) :
    (analyze_plant_health days_since_planted height soil_moisture temperature
        ph).overall_health_score
      = roundTo 1 (((assess_growth_rate days_since_planted height
          + evaluate_environment soil_moisture temperature
          + (1 - detect_stress_indicators soil_moisture temperature ph)) / 3) * 100) ∧
    (0 ≤ height →
      0 ≤ (analyze_plant_health days_since_planted height soil_moisture temperature
            ph).overall_health_score ∧
      (analyze_plant_health days_since_planted height soil_moisture temperature
          ph).overall_health_score ≤ 100) ∧
    (analyze_plant_health days_since_planted height soil_moisture temperature
        ph).health_status
      = classify_health_status ((assess_growth_rate days_since_planted height
          + evaluate_environment soil_moisture temperature
          + (1 - detect_stress_indicators soil_moisture temperature ph)) / 3) ∧
    classify_health_status 0.9 = HealthStatus.alo ∧
    (∀ x : ℚ, 0.9 ≤ x → classify_health_status x = HealthStatus.alo) ∧
    classify_health_status 0.75 = HealthStatus.yaxshi ∧
    classify_health_status 0.6 = HealthStatus.ortacha ∧
    classify_health_status 0.4 = HealthStatus.yomon ∧
    classify_health_status (0.4 - 1/1000000) = HealthStatus.kritik := by
  refine ⟨rfl, ?_, rfl, ?_, ?_, ?_, ?_, ?_, ?_⟩
  · intro hh
    have hg := assess_growth_rate_bounds days_since_planted height hh
    have he := evaluate_environment_bounds soil_moisture temperature
    have hs := detect_stress_bounds soil_moisture temperature ph
    simp only [analyze_plant_health]
    unfold roundTo
    have hub := pyRound_le_add_half (((assess_growth_rate days_since_planted height
        + evaluate_environment soil_moisture temperature
        + (1 - detect_stress_indicators soil_moisture temperature ph)) / 3) * 100 * 10 ^ 1)
    have hlb := sub_half_le_pyRound (((assess_growth_rate days_since_planted height
        + evaluate_environment soil_moisture temperature
        + (1 - detect_stress_indicators soil_moisture temperature ph)) / 3) * 100 * 10 ^ 1)
    constructor
    · rw [le_div_iff₀ (by norm_num : (0 : ℚ) < 10 ^ 1)]
      nlinarith [hg.1, he.1, hs.2]
    · rw [div_le_iff₀ (by norm_num : (0 : ℚ) < 10 ^ 1)]
      nlinarith [hg.2, he.2, hs.1]
  · norm_num [classify_health_status]
  · intro x hx
    unfold classify_health_status
    rw [if_pos]
    exact hx
  · norm_num [classify_health_status]
  · norm_num [classify_health_status]
  · norm_num [classify_health_status]
  · norm_num [classify_health_status]

/-- Witness for C6 (amended): the range bound applied at the concrete
non-negative-height input of scenario 3, and the inclusive top band
applied at the concrete normalized score 0.95. -/
theorem claim_C6_witness :
    0 ≤ (analyze_plant_health 50 30 65 25 6.8).overall_health_score ∧
    classify_health_status 0.95 = HealthStatus.alo :=
  ⟨((claim_C6_amended 50 30 65 25 6.8).2.1 (by norm_num)).1,
   (claim_C6_amended 0 0 0 0 0).2.2.2.2.1 0.95 (by norm_num)⟩

/-- C1: whenever `analyze_comprehensive_data` runs with the real API
unavailable (`use_real_api` false: no API key or failed client
initialisation), or the model call raises, or the model returns empty
text, the returned dictionary carries the explicit error contract — keys
`error`, `message` and `required_action` — and carries no
`irrigation_recommendation` key: no synthesized recommendation is
returned in place of a real model response. -/
theorem claim_C1 (env : GeminiEnv) (soil_moisture : ℚ)
    (h : env.use_real_api = false ∨ env.call_error ≠ none ∨ env.response_text = "") :
    "error" ∈ analysis_result_keys (analyze_comprehensive_data env soil_moisture) ∧
    "message" ∈ analysis_result_keys (analyze_comprehensive_data env soil_moisture) ∧
    "required_action" ∈ analysis_result_keys (analyze_comprehensive_data env soil_moisture) ∧
    "irrigation_recommendation"
      ∉ analysis_result_keys (analyze_comprehensive_data env soil_moisture) := by
  cases hapi : env.use_real_api
  · simp [analyze_comprehensive_data, hapi, analysis_result_keys]
  · rcases h with h | h | h
    · rw [hapi] at h
      exact absurd h (by simp)
    · cases hce : env.call_error with
      | none => exact absurd hce h
      | some e =>
          simp [analyze_comprehensive_data, hapi, hce, analysis_result_keys]
    · cases hce : env.call_error with
      | some e =>
          simp [analyze_comprehensive_data, hapi, hce, analysis_result_keys]
      | none =>
          simp [analyze_comprehensive_data, hapi, hce, h, analysis_result_keys]

/-- Witness for C1: the missing-API-key run at a concrete environment. -/
theorem claim_C1_witness :
    "error" ∈ analysis_result_keys
        (analyze_comprehensive_data ⟨false, none, "x", none⟩ 50) ∧
    "message" ∈ analysis_result_keys
        (analyze_comprehensive_data ⟨false, none, "x", none⟩ 50) ∧
    "required_action" ∈ analysis_result_keys
        (analyze_comprehensive_data ⟨false, none, "x", none⟩ 50) ∧
    "irrigation_recommendation" ∉ analysis_result_keys
        (analyze_comprehensive_data ⟨false, none, "x", none⟩ 50) :=
  claim_C1 ⟨false, none, "x", none⟩ 50 (Or.inl rfl)

/-- C4 counterexample: a run in which the model call succeeds with
non-empty text `"t"` but response interpretation raises (message
`"boom"`) does NOT end in the claimed terminal-error state:
`analyze_comprehensive_data` returns the success-shaped dictionary — top
level key `gemini_analysis` present, no top-level `error`, `message` or
`required_action` — because `_parse_real_gemini_response` catches the
exception itself and its error dictionary is embedded under
`gemini_analysis`. -/
theorem claim_C4_counterexample :
    analyze_comprehensive_data ⟨true, none, "t", some "boom"⟩ 50
      = AnalysisResult.analysis (ParsedResponse.parseFailed
          "GEMINI_RESPONSE_PARSE_ERROR: boom" "t") ∧
    "error" ∉ analysis_result_keys
        (analyze_comprehensive_data ⟨true, none, "t", some "boom"⟩ 50) ∧
    "message" ∉ analysis_result_keys
        (analyze_comprehensive_data ⟨true, none, "t", some "boom"⟩ 50) ∧
    "required_action" ∉ analysis_result_keys
        (analyze_comprehensive_data ⟨true, none, "t", some "boom"⟩ 50) ∧
    "gemini_analysis" ∈ analysis_result_keys
        (analyze_comprehensive_data ⟨true, none, "t", some "boom"⟩ 50) := by
  have htr : truncate500 "t" = "t" := by
    unfold truncate500
    rw [if_neg (by decide)]
  refine ⟨?_, ?_, ?_, ?_, ?_⟩ <;>
    simp [analyze_comprehensive_data, parse_real_gemini_response, htr,
      analysis_result_keys]

/-- C4 (amended): when response interpretation raises,
`_parse_real_gemini_response` returns the parse-error dictionary (keys
`error`, `message`, `raw_response`, `source` — note: no
`required_action`), and `analyze_comprehensive_data` embeds it under
`gemini_analysis` inside the success-shaped payload whose top-level keys
are identical to those of a PARSED_OK run; the parse failure is NOT a
terminal-error state of `analyze_comprehensive_data` — only the
missing-API-key and model-call-failure paths return the top-level
`error` / `message` / `required_action` contract. -/
theorem claim_C4_amended (env : GeminiEnv) (soil_moisture : ℚ) (e : String)
    (h1 : env.use_real_api = true) (h2 : env.call_error = none)
    (h3 : env.response_text ≠ "") (h4 : env.parse_error = some e) :
    analyze_comprehensive_data env soil_moisture
      = AnalysisResult.analysis (ParsedResponse.parseFailed
          ("GEMINI_RESPONSE_PARSE_ERROR: " ++ e) (truncate500 env.response_text)) ∧
    parsed_response_keys (ParsedResponse.parseFailed
          ("GEMINI_RESPONSE_PARSE_ERROR: " ++ e) (truncate500 env.response_text))
      = ["error", "message", "raw_response", "source"] ∧
    analysis_result_keys (analyze_comprehensive_data env soil_moisture)
      = analysis_result_keys (AnalysisResult.analysis
          (ParsedResponse.parsedOk env.response_text soil_moisture)) := by
  refine ⟨?_, rfl, ?_⟩ <;>
    simp [analyze_comprehensive_data, h1, h2, h3, h4, parse_real_gemini_response,
      analysis_result_keys]

/-- Witness for C4 (amended) at a concrete parse-failure environment. -/
theorem claim_C4_witness :
    analyze_comprehensive_data ⟨true, none, "tx", some "oops"⟩ 40
      = AnalysisResult.analysis (ParsedResponse.parseFailed
          ("GEMINI_RESPONSE_PARSE_ERROR: " ++ "oops") (truncate500 "tx")) :=
  (claim_C4_amended ⟨true, none, "tx", some "oops"⟩ 40 "oops" rfl rfl (by simp) rfl).1

/-- C10: the comprehensive-analysis view records its session as
`completed` whenever `analyze_comprehensive_data` returns a value —
including when that value is the no-fallback error dictionary for a
missing API key or a failed model call — and records `failed` only when
an exception propagates inside the view body; `analyze_comprehensive_data`
itself returns on every path, so a Gemini failure reported as an error
object still ends its session recorded as `completed`. -/
theorem claim_C10 (env : GeminiEnv) (soil_moisture : ℚ) :
    (comprehensive_analysis_view false env soil_moisture).session_status
      = SessionStatus.completed ∧
    (comprehensive_analysis_view false env soil_moisture).response_result
      = some (analyze_comprehensive_data env soil_moisture) ∧
    (∀ b : Bool,
      (comprehensive_analysis_view b env soil_moisture).session_status
        = SessionStatus.failed → b = true) ∧
    ("error" ∈ analysis_result_keys
        (analyze_comprehensive_data ⟨false, none, "", none⟩ 50) ∧
      (comprehensive_analysis_view false ⟨false, none, "", none⟩ 50).session_status
        = SessionStatus.completed) ∧
    ("error" ∈ analysis_result_keys
        (analyze_comprehensive_data ⟨true, some "network down", "", none⟩ 50) ∧
      (comprehensive_analysis_view false
          ⟨true, some "network down", "", none⟩ 50).session_status
        = SessionStatus.completed) := by
  refine ⟨rfl, rfl, ?_, ⟨?_, rfl⟩, ⟨?_, rfl⟩⟩
  · intro b hb
    cases b
    · simp [comprehensive_analysis_view] at hb
    · rfl
  · simp [analyze_comprehensive_data, analysis_result_keys]
  · simp [analyze_comprehensive_data, analysis_result_keys]

/-- Witness for C10: a completed error-object session at a concrete
environment, and the failed status arising only from the surrounding
exception flag. -/
theorem claim_C10_witness :
    (comprehensive_analysis_view false ⟨false, none, "", none⟩ 50).session_status
      = SessionStatus.completed ∧ true = true :=
  ⟨(claim_C10 ⟨false, none, "", none⟩ 50).1,
   (claim_C10 ⟨false, none, "", none⟩ 50).2.2.1 true rfl⟩

/-- Witness for C3: the moisture sub-score at the concrete reading 65 is
at most 0.1. -/
theorem claim_C3_witness : moisture_score 65 ≤ 0.1 :=
  (claim_C3 65 40 30 0).2.1 (by norm_num)
